import Mathlib

/-
  Verification of the unit-economics estimation engine of the Go-NoGo
  repository (src/app.py), shallowly embedded over the rationals.

  Numeric values are modelled as exact rationals; the Python calls
  round(x, 2) and round(x, 1) are modelled by round-half-to-even at the
  corresponding decimal precision, which is the rounding rule Python's
  built-in round implements.
-/

namespace GoNoGo

/-- Round half to even (banker's rounding) to an integer, the rule used by
Python's built-in round on the exact value of its argument. -/
def rhe (x : ℚ) : ℤ :=
  if Int.fract x = 1/2 then (if 2 ∣ ⌊x⌋ then ⌊x⌋ else ⌊x⌋ + 1) else round x

/-- Python round(x, 2): round half to even at two decimal places. -/
def round2 (x : ℚ) : ℚ := (rhe (100 * x) : ℚ) / 100

/-- Python round(x, 1): round half to even at one decimal place. -/
def round1 (x : ℚ) : ℚ := (rhe (10 * x) : ℚ) / 10

/-- Dictionary lookup, mirroring Python dict.get(key): none when the key is
absent. -/
def assoc? {α : Type} (table : List (String × α)) (key : String) : Option α :=
  match table with
  | [] => none
  | (k, v) :: rest => if key = k then some v else assoc? rest key

/-- Dictionary lookup with a default, mirroring Python dict.get(key, d). -/
def assocD {α : Type} (table : List (String × α)) (key : String) (d : α) : α :=
  (assoc? table key).getD d

/-- Dictionary lookup with a default for the numeric rate tables. -/
def lookupD (table : List (String × ℚ)) (key : String) (d : ℚ) : ℚ :=
  assocD table key d

/-- Shipping zone argument of get_platform_fees; the aggregator always
passes the national zone. -/
inductive Zone where
  | localZone
  | regional
  | national
deriving DecidableEq, Repr

/-- AMAZON_FEES referral_fees table: referral rate by platform category. -/
def AMAZON_referral_fees : List (String × ℚ) :=
  [("Grocery & Gourmet", 8/100), ("Health & Personal Care", 12/100),
   ("Beauty", 10/100), ("Baby Products", 10/100), ("Pet Supplies", 15/100),
   ("Home & Kitchen", 12/100), ("Electronics", 10/100),
   ("Sports & Fitness", 12/100), ("Other", 15/100)]

/-- Closing-fee bracket choice of the amazon branch of get_platform_fees,
reading the AMAZON_FEES closing_fees table. -/
def amazon_closing_fee (mrp : ℚ) : ℚ :=
  if mrp ≤ 300 then 26 else if mrp ≤ 500 then 21 else if mrp ≤ 1000 then 26 else 51

/-- Weight-handling bracket choice of the amazon branch of get_platform_fees,
reading the AMAZON_FEES weight_handling table for the given zone. -/
def amazon_weight_fee (zone : Zone) (weight : ℚ) : ℚ :=
  match zone with
  | .localZone => if weight ≤ 500 then 29 else if weight ≤ 1000 then 40 else if weight ≤ 2000 then 54 else 74
  | .regional => if weight ≤ 500 then 43 else if weight ≤ 1000 then 58 else if weight ≤ 2000 then 77 else 102
  | .national => if weight ≤ 500 then 57 else if weight ≤ 1000 then 77 else if weight ≤ 2000 then 102 else 137

/-- FLIPKART_FEES commission_rates table. -/
def FLIPKART_commission_rates : List (String × ℚ) :=
  [("Grocery & Gourmet", 5/100), ("Health & Personal Care", 12/100),
   ("Beauty & Cosmetics", 10/100), ("Baby Care", 8/100), ("Pet Supplies", 14/100),
   ("Home & Kitchen", 14/100), ("Electronics", 8/100), ("Sports", 12/100),
   ("Other", 12/100)]

/-- Fixed-fee bracket choice of the flipkart branch of get_platform_fees,
reading the FLIPKART_FEES fixed_fees table. -/
def flipkart_fixed_fee (mrp : ℚ) : ℚ :=
  if mrp ≤ 300 then 11 else if mrp ≤ 500 then 25 else if mrp ≤ 1000 then 40 else 60

/-- Shipping-fee bracket choice of the flipkart branch of get_platform_fees,
reading the FLIPKART_FEES shipping_fees table for the given zone. -/
def flipkart_shipping_fee (zone : Zone) (weight : ℚ) : ℚ :=
  match zone with
  | .localZone => if weight ≤ 500 then 25 else if weight ≤ 1000 then 35 else if weight ≤ 2000 then 50 else 70
  | .regional => if weight ≤ 500 then 40 else if weight ≤ 1000 then 55 else if weight ≤ 2000 then 75 else 100
  | .national => if weight ≤ 500 then 55 else if weight ≤ 1000 then 75 else if weight ≤ 2000 then 100 else 135

/-- CATEGORY_TO_PLATFORM_CATEGORY, amazon column. -/
def category_to_amazon : List (String × String) :=
  [("Packaged Snacks", "Grocery & Gourmet"), ("Personal Care", "Health & Personal Care"),
   ("Supplements", "Health & Personal Care"), ("Beverages", "Grocery & Gourmet"),
   ("Home Care", "Home & Kitchen"), ("Baby Products", "Baby Products"),
   ("Pet Food", "Pet Supplies"), ("Electronics", "Electronics"), ("Other", "Other")]

/-- CATEGORY_TO_PLATFORM_CATEGORY, flipkart column. -/
def category_to_flipkart : List (String × String) :=
  [("Packaged Snacks", "Grocery & Gourmet"), ("Personal Care", "Health & Personal Care"),
   ("Supplements", "Health & Personal Care"), ("Beverages", "Grocery & Gourmet"),
   ("Home Care", "Home & Kitchen"), ("Baby Products", "Baby Care"),
   ("Pet Food", "Pet Supplies"), ("Electronics", "Electronics"), ("Other", "Other")]

/-- Result dictionary of the amazon branch of get_platform_fees. -/
structure AmazonFees where
  referral_fee : ℚ
  closing_fee : ℚ
  weight_handling_fee : ℚ
  gst_on_fees : ℚ
  total_platform_fee : ℚ
deriving DecidableEq, Repr

/-- Result dictionary of the flipkart branch of get_platform_fees. -/
structure FlipkartFees where
  commission : ℚ
  fixed_fee : ℚ
  shipping_fee : ℚ
  collection_fee : ℚ
  gst_on_fees : ℚ
  total_platform_fee : ℚ
deriving DecidableEq, Repr

/-- Amazon branch of get_platform_fees in app.py: referral fee as a rate on
MRP, closing fee by price bracket, weight-handling fee by weight bracket and
zone, plus 18 percent GST on the summed fees. -/
def get_amazon_fees (mrp weight : ℚ) (category : String) (zone : Zone) : AmazonFees :=
  let platform_category := assocD category_to_amazon category "Other"
  let referral_rate := lookupD AMAZON_referral_fees platform_category (15/100)
  let referral_fee := mrp * referral_rate
  let closing_fee := amazon_closing_fee mrp
  let weight_fee := amazon_weight_fee zone weight
  let total_fees := referral_fee + closing_fee + weight_fee
  let gst_on_fees := total_fees * (18/100)
  { referral_fee := referral_fee, closing_fee := closing_fee,
    weight_handling_fee := weight_fee, gst_on_fees := gst_on_fees,
    total_platform_fee := total_fees + gst_on_fees }

/-- Flipkart branch of get_platform_fees in app.py: commission as a rate on
MRP, fixed fee by price bracket, shipping fee by weight bracket and zone, a
2 percent collection fee on MRP, plus 18 percent GST on the summed fees. -/
def get_flipkart_fees (mrp weight : ℚ) (category : String) (zone : Zone) : FlipkartFees :=
  let platform_category := assocD category_to_flipkart category "Other"
  let commission_rate := lookupD FLIPKART_commission_rates platform_category (12/100)
  let commission := mrp * commission_rate
  let fixed_fee := flipkart_fixed_fee mrp
  let shipping_fee := flipkart_shipping_fee zone weight
  let collection_fee := mrp * (2/100)
  let total_fees := commission + fixed_fee + shipping_fee + collection_fee
  let gst_on_fees := total_fees * (18/100)
  { commission := commission, fixed_fee := fixed_fee, shipping_fee := shipping_fee,
    collection_fee := collection_fee, gst_on_fees := gst_on_fees,
    total_platform_fee := total_fees + gst_on_fees }

/-- Row of the QUICK_COMMERCE_FEES table. -/
structure QCPlatformData where
  commission_rate : ℚ
  listing_fee_monthly : ℚ
  min_margin_required : ℚ
  payment_cycle_days : ℚ
  return_rate : ℚ
deriving DecidableEq, Repr

/-- QUICK_COMMERCE_FEES table of app.py: all configured quick-commerce
platforms (blinkit, zepto, swiggy_instamart, bigbasket). -/
def QUICK_COMMERCE_FEES : List (String × QCPlatformData) :=
  [("blinkit", ⟨30/100, 0, 25/100, 7, 2/100⟩),
   ("zepto", ⟨28/100, 0, 22/100, 7, 2/100⟩),
   ("swiggy_instamart", ⟨32/100, 0, 25/100, 7, 3/100⟩),
   ("bigbasket", ⟨25/100, 500, 20/100, 14, 4/100⟩)]

/-- Result dictionary of get_quick_commerce_fees. -/
structure QCFees where
  commission : ℚ
  commission_rate : ℚ
  listing_fee : ℚ
  return_cost : ℚ
  total_platform_fee : ℚ
deriving DecidableEq, Repr

/-- The get_quick_commerce_fees function of app.py: a flat commission on MRP
plus a separate return-cost rate; the blinkit row is the default for an
unknown platform name. -/
def get_quick_commerce_fees (mrp : ℚ) (platform : String) : QCFees :=
  let qc := assocD QUICK_COMMERCE_FEES platform ⟨30/100, 0, 25/100, 7, 2/100⟩
  let commission := mrp * qc.commission_rate
  let return_cost := mrp * qc.return_rate
  { commission := commission, commission_rate := qc.commission_rate,
    listing_fee := qc.listing_fee_monthly, return_cost := return_cost,
    total_platform_fee := commission }

/-- RAW_MATERIAL_COSTS table of app.py: static wholesale prices in INR per
kilogram (or per piece where noted in the source). -/
def RAW_MATERIAL_COSTS : List (String × ℚ) :=
  [("wheat_flour", 32), ("rice_flour", 45), ("maida", 35), ("besan", 85),
   ("oats", 120), ("corn_flour", 40), ("ragi_flour", 55), ("multigrain_flour", 75),
   ("palm_oil", 95), ("sunflower_oil", 140), ("coconut_oil", 180), ("olive_oil", 650),
   ("mustard_oil", 150), ("groundnut_oil", 190), ("ghee", 450), ("butter", 420),
   ("sugar", 42), ("jaggery", 55), ("honey", 280), ("stevia", 1500),
   ("glucose_syrup", 65),
   ("milk_powder", 320), ("whey_protein", 450), ("paneer", 320), ("cheese", 380),
   ("cream", 280),
   ("soy_protein", 180), ("pea_protein", 350), ("chicken", 180), ("eggs", 6),
   ("fish", 250),
   ("salt", 15), ("turmeric", 120), ("chili_powder", 180), ("cumin", 220),
   ("coriander", 90), ("black_pepper", 450), ("cardamom", 2200), ("cinnamon", 280),
   ("vanilla_extract", 3500), ("natural_flavors", 800),
   ("peanuts", 120), ("almonds", 750), ("cashews", 850), ("walnuts", 950),
   ("chia_seeds", 400), ("flax_seeds", 180), ("sunflower_seeds", 160),
   ("pumpkin_seeds", 450),
   ("dried_fruits_mix", 350), ("tomato_paste", 95), ("mango_pulp", 120),
   ("coconut", 80), ("dates", 180),
   ("sodium_lauryl_sulfate", 180), ("glycerin", 120), ("citric_acid", 95),
   ("sodium_bicarbonate", 45), ("fragrance_oils", 650), ("essential_oils", 1200),
   ("preservatives", 450), ("emulsifiers", 380), ("thickeners", 220),
   ("colorants", 850),
   ("hdpe_granules", 135), ("pet_granules", 125), ("pp_granules", 145),
   ("aluminum_foil", 280), ("kraft_paper", 65), ("corrugated_board", 45),
   ("glass", 25), ("labels", 2), ("caps_closures", 3)]

/-- PACKAGING_COSTS_DETAILED table of app.py: (cost, weight_capacity) per
packaging type. -/
def PACKAGING_COSTS_DETAILED : List (String × ℚ × ℚ) :=
  [("pouch_small", 3, 100), ("pouch_medium", 5, 250), ("pouch_large", 8, 500),
   ("pouch_xl", 12, 1000), ("box_small", 8, 200), ("box_medium", 12, 500),
   ("box_large", 18, 1000), ("bottle_plastic_small", 6, 200),
   ("bottle_plastic_medium", 10, 500), ("bottle_plastic_large", 15, 1000),
   ("bottle_glass_small", 12, 200), ("bottle_glass_medium", 18, 500),
   ("jar_plastic", 8, 250), ("jar_glass", 15, 250), ("tube", 7, 100),
   ("sachet", 3/2, 50), ("can_metal", 15, 400), ("tetrapack", 8, 500)]

/-- Automatic packaging-type selection of estimate_packaging_cost when no
packaging_type is given: category-specific weight brackets. -/
def auto_packaging_type (weight : ℚ) (category : String) : String :=
  if category = "Packaged Snacks" then
    (if weight ≤ 100 then "pouch_small" else if weight ≤ 250 then "pouch_medium"
     else if weight ≤ 500 then "pouch_large" else "pouch_xl")
  else if category = "Personal Care" ∨ category = "Home Care" then
    (if weight ≤ 200 then "bottle_plastic_small" else if weight ≤ 500 then "bottle_plastic_medium"
     else "bottle_plastic_large")
  else if category = "Beverages" then
    (if weight ≤ 200 then "tetrapack" else if weight ≤ 500 then "bottle_plastic_medium"
     else "bottle_plastic_large")
  else if category = "Supplements" then
    (if weight ≤ 100 then "jar_plastic" else "bottle_plastic_medium")
  else "box_medium"

/-- Result dictionary of estimate_packaging_cost. -/
structure PackagingResult where
  primary_packaging : ℚ
  packaging_type : String
  labels : ℚ
  closures : ℚ
  secondary_packaging : ℚ
  total_packaging_cost : ℚ
deriving DecidableEq, Repr

/-- The estimate_packaging_cost function of app.py: primary packaging by
type (auto-selected when unspecified, cost 10 for an unknown type), plus
labels, closures, and a secondary shipping box amortized over 6 units. -/
def estimate_packaging_cost (weight : ℚ) (category : String)
    (packaging_type : Option String) : PackagingResult :=
  let ptype := match packaging_type with
    | some t => t
    | none => auto_packaging_type weight category
  let primary_packaging := ((assoc? PACKAGING_COSTS_DETAILED ptype).map (fun p => p.1)).getD 10
  let labels := lookupD RAW_MATERIAL_COSTS "labels" 2
  let closures := lookupD RAW_MATERIAL_COSTS "caps_closures" 3
  let secondary := 8 / 6
  { primary_packaging := primary_packaging, packaging_type := ptype,
    labels := labels, closures := closures, secondary_packaging := secondary,
    total_packaging_cost := primary_packaging + labels + closures + secondary }

/-- MANUFACTURING_OVERHEAD table of app.py: overhead rate by category. -/
def MANUFACTURING_OVERHEAD : List (String × ℚ) :=
  [("Packaged Snacks", 35/100), ("Personal Care", 45/100), ("Supplements", 55/100),
   ("Beverages", 30/100), ("Home Care", 40/100), ("Baby Products", 50/100),
   ("Pet Food", 35/100), ("Electronics", 25/100), ("Other", 40/100)]

/-- The base_cost_per_gram table inside the final fallback branch of
estimate_raw_material_cost. -/
def base_cost_per_gram : List (String × ℚ) :=
  [("Packaged Snacks", 12/100), ("Personal Care", 20/100), ("Supplements", 45/100),
   ("Beverages", 8/100), ("Home Care", 10/100), ("Baby Products", 30/100),
   ("Pet Food", 15/100), ("Other", 18/100)]

/-- Deterministic category-benchmark branch of estimate_raw_material_cost
(the path taken when no API key is configured, so both the ingredient
analysis and the direct AI estimate are unavailable): 70 percent of the
category cost-per-gram coefficient as raw material, plus category overhead.
Returns the total_manufacturing_cost field. -/
def estimate_raw_material_cost_fallback (category : String) (weight : ℚ) : ℚ :=
  let cost_per_gram := lookupD base_cost_per_gram category (18/100)
  let raw_material_cost := cost_per_gram * weight * (7/10)
  let overhead := raw_material_cost * lookupD MANUFACTURING_OVERHEAD category (40/100)
  raw_material_cost + overhead

/-- GST_RATES table of app.py. -/
def GST_RATES : List (String × ℚ) :=
  [("Packaged Snacks", 12/100), ("Personal Care", 18/100), ("Supplements", 18/100),
   ("Beverages", 12/100), ("Home Care", 18/100), ("Baby Products", 12/100),
   ("Pet Food", 18/100), ("Electronics", 18/100), ("Dairy Products", 5/100),
   ("Fresh Food", 0), ("Other", 18/100)]

/-- RETURN_RATES table of app.py. -/
def RETURN_RATES : List (String × ℚ) :=
  [("Packaged Snacks", 3/100), ("Personal Care", 8/100), ("Supplements", 6/100),
   ("Beverages", 4/100), ("Home Care", 5/100), ("Baby Products", 7/100),
   ("Pet Food", 4/100), ("Electronics", 12/100), ("Fashion", 25/100),
   ("Other", 8/100)]

/-- Logistics cost used by the aggregator for the E-commerce and D2C
channels: the xpressbees national rates of LOGISTICS_RATES, selected by
weight bracket. -/
def ecommerce_logistics_cost (weight : ℚ) : ℚ :=
  if weight ≤ 500 then 60 else if weight ≤ 1000 then 78 else 100

/-- The platform_breakdown dictionary built by calculate_unit_economics:
its shape depends on the channel branch taken. -/
inductive PlatformBreakdown where
  | ecommerce (amazon : AmazonFees) (flipkart : FlipkartFees) (average_fee : ℚ)
  | quick (blinkit zepto swiggy_instamart : QCFees) (average_fee : ℚ)
  | d2c (transaction_fee payment_gateway_fee monthly_fee_amortized : ℚ)
deriving DecidableEq, Repr

/-- Values produced by the channel branch (step 3) of
calculate_unit_economics: platform fees, the breakdown, the logistics cost
and the return rate for the chosen channel. -/
structure ChannelData where
  platform_fees : ℚ
  platform_breakdown : PlatformBreakdown
  logistics_cost : ℚ
  return_rate : ℚ
deriving DecidableEq, Repr

/-- Channel dispatch of calculate_unit_economics: E-commerce averages the
Amazon and Flipkart totals (national zone); Quick Commerce averages the
blinkit, zepto and swiggy_instamart totals with zero logistics and a flat
2.5 percent return rate; any other channel string takes the D2C branch with
the shopify transaction and payment-gateway fees. -/
def channel_branch (mrp weight : ℚ) (category : String) (channel : String) : ChannelData :=
  if channel = "E-commerce" then
    let amazon_fees := get_amazon_fees mrp weight category Zone.national
    let flipkart_fees := get_flipkart_fees mrp weight category Zone.national
    let platform_fees := (amazon_fees.total_platform_fee + flipkart_fees.total_platform_fee) / 2
    { platform_fees := platform_fees,
      platform_breakdown := .ecommerce amazon_fees flipkart_fees platform_fees,
      logistics_cost := ecommerce_logistics_cost weight,
      return_rate := lookupD RETURN_RATES category (8/100) }
  else if channel = "Quick Commerce" then
    let blinkit_fees := get_quick_commerce_fees mrp "blinkit"
    let zepto_fees := get_quick_commerce_fees mrp "zepto"
    let swiggy_fees := get_quick_commerce_fees mrp "swiggy_instamart"
    let platform_fees := (blinkit_fees.total_platform_fee + zepto_fees.total_platform_fee +
      swiggy_fees.total_platform_fee) / 3
    { platform_fees := platform_fees,
      platform_breakdown := .quick blinkit_fees zepto_fees swiggy_fees platform_fees,
      logistics_cost := 0,
      return_rate := 25/1000 }
  else
    { platform_fees := mrp * (2/100) + mrp * (2/100),
      platform_breakdown := .d2c (mrp * (2/100)) (mrp * (2/100)) (2499/500),
      logistics_cost := ecommerce_logistics_cost weight,
      return_rate := lookupD RETURN_RATES category (8/100) }

/-- Unrounded quantities computed by calculate_unit_economics before the
final result dictionary applies rounding. -/
structure CoreEconomics where
  manufacturing_cost : ℚ
  packaging_cost : ℚ
  platform_fees : ℚ
  logistics_cost : ℚ
  returns_cost : ℚ
  marketing_allocation : ℚ
  gst_liability : ℚ
  total_cost : ℚ
  net_margin : ℚ
  margin_percentage : ℚ
  platform_breakdown : PlatformBreakdown
  return_rate : ℚ
  gst_rate : ℚ
deriving DecidableEq, Repr

/-- Body of calculate_unit_economics up to the margin computation, with the
manufacturing cost (the total_manufacturing_cost produced by
estimate_raw_material_cost) passed in as a value: packaging, channel fees,
returns at the channel return rate, GST backed out of MRP, a flat 10 percent
marketing allocation, the six-component cost total (without GST), and the
margin.  Note total_cost here is the internal sum that excludes GST; the
reported dictionary adds GST to it. -/
def unit_economics_core (manufacturing_cost : ℚ) (category : String)
    (weight mrp : ℚ) (channel : String) : CoreEconomics :=
  let packaging_cost := (estimate_packaging_cost weight category none).total_packaging_cost
  let chan := channel_branch mrp weight category channel
  let returns_cost := mrp * chan.return_rate
  let gst_rate := lookupD GST_RATES category (18/100)
  let gst_liability := mrp * gst_rate / (1 + gst_rate)
  let marketing_allocation := mrp * (10/100)
  let total_cost := manufacturing_cost + packaging_cost + chan.platform_fees +
    chan.logistics_cost + returns_cost + marketing_allocation
  let net_margin := mrp - total_cost - gst_liability
  let margin_percentage := if mrp > 0 then net_margin / mrp * 100 else 0
  { manufacturing_cost := manufacturing_cost, packaging_cost := packaging_cost,
    platform_fees := chan.platform_fees, logistics_cost := chan.logistics_cost,
    returns_cost := returns_cost, marketing_allocation := marketing_allocation,
    gst_liability := gst_liability, total_cost := total_cost,
    net_margin := net_margin, margin_percentage := margin_percentage,
    platform_breakdown := chan.platform_breakdown, return_rate := chan.return_rate,
    gst_rate := gst_rate }

/-- Reported (rounded) result dictionary of calculate_unit_economics. -/
structure UnitEconomics where
  manufacturing_cost : ℚ
  packaging_cost : ℚ
  platform_fees : ℚ
  logistics_cost : ℚ
  returns_cost : ℚ
  marketing_allocation : ℚ
  gst_liability : ℚ
  total_cost : ℚ
  net_margin : ℚ
  margin_percentage : ℚ
  platform_breakdown : PlatformBreakdown
  return_rate : ℚ
  gst_rate : ℚ
  contribution_margin : ℚ
  channel : String
deriving DecidableEq, Repr

/-- The calculate_unit_economics function of app.py, with the manufacturing
cost passed in as a value (in the source it is the
total_manufacturing_cost returned by estimate_raw_material_cost, whose
network-free branch is estimate_raw_material_cost_fallback).  Every
monetary field is reported through round(x, 2) and the margin percentage
through round(x, 1); the reported total_cost adds gst_liability to the
six-component internal total. -/
def calculate_unit_economics (manufacturing_cost : ℚ) (category : String)
    (weight mrp : ℚ) (channel : String) : UnitEconomics :=
  let c := unit_economics_core manufacturing_cost category weight mrp channel
  { manufacturing_cost := round2 c.manufacturing_cost,
    packaging_cost := round2 c.packaging_cost,
    platform_fees := round2 c.platform_fees,
    logistics_cost := round2 c.logistics_cost,
    returns_cost := round2 c.returns_cost,
    marketing_allocation := round2 c.marketing_allocation,
    gst_liability := round2 c.gst_liability,
    total_cost := round2 (c.total_cost + c.gst_liability),
    net_margin := round2 c.net_margin,
    margin_percentage := round1 c.margin_percentage,
    platform_breakdown := c.platform_breakdown,
    return_rate := c.return_rate,
    gst_rate := c.gst_rate,
    contribution_margin := round2 (mrp - manufacturing_cost - c.packaging_cost),
    channel := channel }

/-- Ascending sort used by the scrapers (Python list.sort). -/
def sortPrices (prices : List ℚ) : List ℚ := prices.insertionSort (fun a b => a ≤ b)

/-- Element the scrapers return from the sorted listing prices:
Python prices[len(prices) // 2] after prices.sort(). -/
def scraped_median (prices : List ℚ) : ℚ :=
  (sortPrices prices).getD (prices.length / 2) 0

/-- Result dictionary of scrape_indiamart_price when listings are found. -/
structure IndiaMartQuote where
  price : ℚ
  min_price : ℚ
  max_price : ℚ
  source : String
  num_listings : ℕ
  confidence : String
deriving DecidableEq, Repr

/-- Aggregation step of scrape_indiamart_price (the part after the network
fetch and per-kilogram filtering), applied to the list of qualifying
per-kilogram listing prices: none when no listing qualified, otherwise the
sorted middle element, the extremes, the listing count, and a confidence of
high when at least 3 listings were found, else medium. -/
def scrape_indiamart_aggregate (prices : List ℚ) : Option IndiaMartQuote :=
  if prices = [] then none
  else some
    { price := scraped_median prices,
      min_price := (prices.min?).getD 0,
      max_price := (prices.max?).getD 0,
      source := "IndiaMART",
      num_listings := prices.length,
      confidence := if 3 ≤ prices.length then "high" else "medium" }

/-- Result dictionary of scrape_google_price when price mentions are found. -/
structure GoogleQuote where
  price : ℚ
  source : String
  num_listings : ℕ
deriving DecidableEq, Repr

/-- Aggregation step of scrape_google_price, applied to the list of parsed
price mentions: none when nothing parsed, otherwise the sorted middle
element and the count. -/
def scrape_google_aggregate (prices : List ℚ) : Option GoogleQuote :=
  if prices = [] then none
  else some
    { price := scraped_median prices,
      source := "Google Search",
      num_listings := prices.length }

/-- Common fields of a scraped price dictionary as read back by
get_live_ingredient_price. -/
structure ScrapedPrice where
  price : ℚ
  source : String
  num_listings : ℕ
deriving DecidableEq, Repr

/-- View of an IndiaMART result through the fields the resolver reads. -/
def IndiaMartQuote.toScraped (q : IndiaMartQuote) : ScrapedPrice :=
  { price := q.price, source := q.source, num_listings := q.num_listings }

/-- View of a Google result through the fields the resolver reads. -/
def GoogleQuote.toScraped (q : GoogleQuote) : ScrapedPrice :=
  { price := q.price, source := q.source, num_listings := q.num_listings }

/-- Parsed JSON body of the AI price-estimate tier of
get_live_ingredient_price (none models a missing API key, a failed call or
an unparseable response). -/
structure AIEstimate where
  price_per_kg : ℚ
  confidence : String
deriving DecidableEq, Repr

/-- Result dictionary of get_live_ingredient_price. -/
structure IngredientQuote where
  ingredient : String
  price_per_kg : ℚ
  source : String
  confidence : String
  scraped : Bool
deriving DecidableEq, Repr

/-- Normalization applied to the ingredient name by the resolver:
Python ingredient_name.lower().strip().replace(chr(95), chr(32)), expressed
character by character (lowercase, strip surrounding whitespace, then turn
underscores into spaces). -/
def normalize_ingredient (name : String) : String :=
  let lowered := name.data.map Char.toLower
  let stripped :=
    ((lowered.dropWhile Char.isWhitespace).reverse.dropWhile Char.isWhitespace).reverse
  ⟨stripped.map (fun c => if c = '_' then ' ' else c)⟩

/-- Key used for the static-database fallback lookup of the resolver:
Python ingredient_name.lower().replace(chr(32), chr(95)), expressed
character by character (lowercase, then turn spaces into underscores). -/
def db_key (name : String) : String :=
  ⟨(name.data.map Char.toLower).map (fun c => if c = ' ' then '_' else c)⟩

/-- The get_live_ingredient_price function of app.py, with its three
network-backed tiers passed in as the (optional) results of the IndiaMART
scrape, the Google scrape, and the AI estimate: a scraped price wins and is
tagged high confidence only above 3 listings; otherwise the AI estimate;
otherwise the static RAW_MATERIAL_COSTS database tagged medium; otherwise a
hard default of 100 tagged low. -/
def get_live_ingredient_price (ingredient_name : String)
    (indiamart : Option IndiaMartQuote) (google : Option GoogleQuote)
    (ai : Option AIEstimate) : IngredientQuote :=
  let ingredient_clean := normalize_ingredient ingredient_name
  let scraped_price : Option ScrapedPrice :=
    match indiamart with
    | some q => some q.toScraped
    | none => google.map GoogleQuote.toScraped
  match scraped_price with
  | some s =>
      { ingredient := ingredient_clean, price_per_kg := s.price, source := s.source,
        confidence := if 3 < s.num_listings then "high" else "medium", scraped := true }
  | none =>
      match ai with
      | some a =>
          { ingredient := ingredient_clean, price_per_kg := a.price_per_kg,
            source := "AI Estimate", confidence := a.confidence, scraped := false }
      | none =>
          match assoc? RAW_MATERIAL_COSTS (db_key ingredient_name) with
          | some static_price =>
              { ingredient := ingredient_clean, price_per_kg := static_price,
                source := "Database (Fallback)", confidence := "medium", scraped := false }
          | none =>
              { ingredient := ingredient_clean, price_per_kg := 100,
                source := "Default", confidence := "low", scraped := false }

/-- The get_recommendation function of app.py: the GO / PILOT / NO-GO
verdict classifier.  Returns the (kind, title, message) triple. -/
def get_recommendation (margin_percentage : ℚ) : String × String × String :=
  if margin_percentage < 10 then
    ("nogo", "❌ No-Go",
     "Unit economics are structurally challenged. Consider revisiting pricing, costs, or channel strategy before proceeding.")
  else if margin_percentage ≤ 20 then
    ("pilot", "⚠️ Pilot Carefully",
     "Margins are tight but workable. Proceed with controlled testing and validate assumptions before scaling.")
  else
    ("go", "✅ Go",
     "Unit economics support viability. Channel costs are sustainable at this price point.")

/-- Price bracket shared by the Amazon closing-fee and the Flipkart
fixed-fee tables: up to 300, above 300 up to 500, above 500 up to 1000,
above 1000. -/
def price_bracket (p : ℚ) : ℕ :=
  if p ≤ 300 then 0 else if p ≤ 500 then 1 else if p ≤ 1000 then 2 else 3

/-- Average of the fee totals across all quick-commerce platforms configured
in the QUICK_COMMERCE_FEES rate table.  This definition follows the words of
the spec (average across all configured quick-commerce apps) and serves only
as the comparison point for claim C4. -/
def qc_average_all_configured (mrp : ℚ) : ℚ :=
  ((QUICK_COMMERCE_FEES.map
      (fun p => (get_quick_commerce_fees mrp p.1).total_platform_fee)).sum) /
    (QUICK_COMMERCE_FEES.length : ℚ)

/-- Median of a list of rationals in the usual sense the spec wording
intends: middle element of the sorted list for an odd count, mean of the
two middle elements for an even count.  This definition follows the words
of the spec and serves only as the comparison point for claim C9. -/
def medianSpec (prices : List ℚ) : ℚ :=
  let s := sortPrices prices
  if s.length % 2 = 1 then s.getD (s.length / 2) 0
  else (s.getD (s.length / 2 - 1) 0 + s.getD (s.length / 2) 0) / 2

/-- C1: the verdict classifier is a pure function of margin_percentage alone:
margin below 10 yields NoGo, between 10 and 20 inclusive yields Pilot, above
20 yields Go; in particular exactly 10 and exactly 20 both classify as Pilot. -/
theorem C1_verdict_classifier (m : ℚ) :
    (m < 10 → (get_recommendation m).1 = "nogo") ∧
    (10 ≤ m → m ≤ 20 → (get_recommendation m).1 = "pilot") ∧
    (20 < m → (get_recommendation m).1 = "go") ∧
    (get_recommendation 10).1 = "pilot" ∧ (get_recommendation 20).1 = "pilot" := by
  refine ⟨?_, ?_, ?_, ?_, ?_⟩
  · intro h; simp [get_recommendation, h]
  · intro h1 h2; simp [get_recommendation, not_lt.mpr h1, h2]
  · intro h
    have h1 : ¬ m < 10 := by linarith
    have h2 : ¬ m ≤ 20 := by linarith
    simp [get_recommendation, h1, h2]
  · norm_num [get_recommendation]
  · norm_num [get_recommendation]

/-- Witness for C1 at the concrete margins 9.99, 10, 15, 20, 20.01 and 25. -/
theorem C1_verdict_classifier_witness :
    (get_recommendation (999/100)).1 = "nogo" ∧
    (get_recommendation 15).1 = "pilot" ∧
    (get_recommendation (2001/100)).1 = "go" ∧
    (get_recommendation 10).1 = "pilot" ∧ (get_recommendation 20).1 = "pilot" :=
  ⟨(C1_verdict_classifier (999/100)).1 (by norm_num),
   (C1_verdict_classifier 15).2.1 (by norm_num) (by norm_num),
   (C1_verdict_classifier (2001/100)).2.2.1 (by norm_num),
   (C1_verdict_classifier 10).2.2.2.1,
   (C1_verdict_classifier 20).2.2.2.2⟩

/-- Helper: the ceiling of x - 1/2 agrees with the floor of x + 1/2 away
from ties. -/
theorem ceil_sub_half (x : ℚ) (h : Int.fract x ≠ 1/2) : ⌈x - 1/2⌉ = ⌊x + 1/2⌋ := by
  have hf0 : 0 ≤ Int.fract x := Int.fract_nonneg x
  have hf1 : Int.fract x < 1 := Int.fract_lt_one x
  have hx : ((⌊x⌋ : ℚ)) + Int.fract x = x := Int.floor_add_fract x
  rcases lt_or_gt_of_ne h with hlt | hgt
  · have h1 : ⌊x + 1/2⌋ = ⌊x⌋ := by
      rw [Int.floor_eq_iff]
      constructor <;> push_cast <;> linarith
    have h2 : ⌈x - 1/2⌉ = ⌊x⌋ := by
      rw [Int.ceil_eq_iff]
      constructor <;> push_cast <;> linarith
    rw [h1, h2]
  · have h1 : ⌊x + 1/2⌋ = ⌊x⌋ + 1 := by
      rw [Int.floor_eq_iff]
      constructor <;> push_cast <;> linarith
    have h2 : ⌈x - 1/2⌉ = ⌊x⌋ + 1 := by
      rw [Int.ceil_eq_iff]
      constructor <;> push_cast <;> linarith
    rw [h1, h2]

/-- Round-half-to-even commutes with negation. -/
theorem rhe_neg (x : ℚ) : rhe (-x) = - rhe x := by
  unfold rhe
  by_cases h : Int.fract x = 1/2
  · have h0 : Int.fract x ≠ 0 := by rw [h]; norm_num
    have hneg : Int.fract (-x) = 1/2 := by rw [Int.fract_neg h0, h]; norm_num
    rw [if_pos hneg, if_pos h]
    have hceil : ((⌈x⌉ : ℤ) : ℚ) = ((⌊x⌋ : ℤ) : ℚ) + 1 := by
      rw [Int.ceil_eq_add_one_sub_fract h0, h]
      have hfl := Int.floor_add_fract x
      rw [h] at hfl
      linarith
    have hceilZ : ⌈x⌉ = ⌊x⌋ + 1 := by exact_mod_cast hceil
    have hflneg : ⌊-x⌋ = -⌊x⌋ - 1 := by rw [Int.floor_neg, hceilZ]; ring
    rw [hflneg]
    split_ifs with h1 h2 h2 <;> omega
  · have hneg : Int.fract (-x) ≠ 1/2 := by
      by_cases h0 : Int.fract x = 0
      · rw [Int.fract_neg_eq_zero.mpr h0]; norm_num
      · rw [Int.fract_neg h0]
        intro hc
        exact h (by linarith)
    rw [if_neg hneg, if_neg h, round_eq, round_eq]
    have hrw : -x + 1/2 = -(x - 1/2) := by ring
    rw [hrw, Int.floor_neg, ceil_sub_half x h]

/-- Round-half-to-even commutes with adding an even integer. -/
theorem rhe_intCast_add (n : ℤ) (hn : 2 ∣ n) (x : ℚ) :
    rhe ((n : ℚ) + x) = n + rhe x := by
  unfold rhe
  rw [Int.fract_int_add, Int.floor_int_add, round_int_add]
  by_cases h : Int.fract x = 1/2
  · rw [if_pos h, if_pos h]
    split_ifs with h1 h2 h2 <;> omega
  · rw [if_neg h, if_neg h]

/-- Two-decimal rounding commutes with subtracting from an integer. -/
theorem round2_intCast_sub (k : ℤ) (x : ℚ) :
    round2 ((k : ℚ) - x) = (k : ℚ) - round2 x := by
  unfold round2
  have h : (100 : ℚ) * ((k : ℚ) - x) = ((100 * k : ℤ) : ℚ) + (-(100 * x)) := by
    push_cast
    ring
  rw [h, rhe_intCast_add (100 * k) ⟨50 * k, by ring⟩, rhe_neg]
  push_cast
  ring

/-- Round-half-to-even moves its argument by at most one half. -/
theorem abs_rhe_sub (y : ℚ) : |(rhe y : ℚ) - y| ≤ 1/2 := by
  unfold rhe
  by_cases h : Int.fract y = 1/2
  · rw [if_pos h]
    have hy : ((⌊y⌋ : ℤ) : ℚ) + 1/2 = y := by
      have hfl := Int.floor_add_fract y
      rw [h] at hfl
      exact hfl
    split_ifs with h2
    · rw [abs_le]
      constructor <;> linarith
    · push_cast
      rw [abs_le]
      constructor <;> linarith
  · rw [if_neg h]
    have hb := abs_sub_round y
    rw [abs_sub_comm] at hb
    exact hb

/-- Two-decimal rounding moves its argument by at most 1/200. -/
theorem abs_round2_sub (x : ℚ) : |round2 x - x| ≤ 1/200 := by
  unfold round2
  have h := abs_rhe_sub (100 * x)
  rw [abs_le] at h ⊢
  constructor <;> [linarith [h.1]; linarith [h.2]]

/-- Helper for the waterfall-consistency bound: rounding seven components
individually and rounding their sum once disagree by at most 8/200. -/
theorem sum7_round2_close (a b c d e f g s : ℚ) (hs : s = a + b + c + d + e + f + g) :
    |round2 a + round2 b + round2 c + round2 d + round2 e + round2 f + round2 g -
      round2 s| ≤ 1 := by
  have ha := abs_round2_sub a
  have hb := abs_round2_sub b
  have hc := abs_round2_sub c
  have hd := abs_round2_sub d
  have he := abs_round2_sub e
  have hf := abs_round2_sub f
  have hg := abs_round2_sub g
  have hS := abs_round2_sub s
  rw [abs_le] at ha hb hc hd he hf hg hS ⊢
  subst hs
  constructor
  · linarith [ha.1, hb.1, hc.1, hd.1, he.1, hf.1, hg.1, hS.2]
  · linarith [ha.2, hb.2, hc.2, hd.2, he.2, hf.2, hg.2, hS.1]

/-- Value of the deterministic fallback manufacturing cost for Packaged
Snacks at 200 grams: 0.12 per gram times 200 times 0.7, plus 35 percent
overhead, equals 22.68. -/
theorem mfc_snacks_200 : estimate_raw_material_cost_fallback "Packaged Snacks" 200 = 567/25 := by
  simp [estimate_raw_material_cost_fallback, base_cost_per_gram,
    MANUFACTURING_OVERHEAD, lookupD, assocD, assoc?]
  norm_num

/-- Value of the packaging cost for Packaged Snacks at 200 grams: a medium
pouch at 5, labels 2, closures 3, and 8/6 of secondary packaging. -/
theorem pack_snacks_200 :
    (estimate_packaging_cost 200 "Packaged Snacks" none).total_packaging_cost = 34/3 := by
  simp [estimate_packaging_cost, auto_packaging_type, PACKAGING_COSTS_DETAILED,
    RAW_MATERIAL_COSTS, lookupD, assocD, assoc?]
  rw [if_neg (by decide)]
  norm_num

/-- Amazon fee total for Packaged Snacks, 200 grams, price 299, national
zone: (23.92 + 26 + 57) times 1.18. -/
theorem amazon_snacks_299 :
    (get_amazon_fees 299 200 "Packaged Snacks" Zone.national).total_platform_fee = 157707/1250 := by
  simp [get_amazon_fees, amazon_closing_fee, amazon_weight_fee, AMAZON_referral_fees,
    category_to_amazon, lookupD, assocD, assoc?]
  norm_num

/-- Flipkart fee total for Packaged Snacks, 200 grams, price 299, national
zone: (14.95 + 11 + 55 + 5.98) times 1.18. -/
theorem flipkart_snacks_299 :
    (get_flipkart_fees 299 200 "Packaged Snacks" Zone.national).total_platform_fee = 512887/5000 := by
  simp [get_flipkart_fees, flipkart_fixed_fee, flipkart_shipping_fee,
    FLIPKART_commission_rates, category_to_flipkart, lookupD, assocD, assoc?]
  norm_num

/-- C2 fails as stated: the returned total_cost already includes
gst_liability (line 2754 of app.py adds it to the six-component internal
sum), so subtracting the returned gst_liability as well as the returned
total_cost from the price counts GST twice.  Concretely, for Packaged
Snacks at weight 200, price 299, channel E-commerce, and the deterministic
fallback manufacturing cost, the returned net_margin is 19.71 while
price minus total_cost minus gst_liability is -12.33. -/
theorem C2_counterexample :
    (calculate_unit_economics (estimate_raw_material_cost_fallback "Packaged Snacks" 200)
        "Packaged Snacks" 200 299 "E-commerce").net_margin ≠
      299 -
        (calculate_unit_economics (estimate_raw_material_cost_fallback "Packaged Snacks" 200)
          "Packaged Snacks" 200 299 "E-commerce").total_cost -
        (calculate_unit_economics (estimate_raw_material_cost_fallback "Packaged Snacks" 200)
          "Packaged Snacks" 200 299 "E-commerce").gst_liability := by
  rw [mfc_snacks_200]
  simp only [calculate_unit_economics, unit_economics_core, channel_branch,
    pack_snacks_200, amazon_snacks_299, flipkart_snacks_299]
  simp [ecommerce_logistics_cost, RETURN_RATES, GST_RATES, lookupD, assocD, assoc?]
  norm_num [round2, rhe, Int.fract, round_eq, Int.floor_eq_iff]

/-- C2 amended: for every manufacturing cost, category, weight, channel and
integer price, the returned net_margin equals the price minus the returned
total_cost; gst_liability is already contained exactly once in the returned
total_cost and is not subtracted a second time (rounding is applied once to
each reported figure, and the identity still holds exactly). -/
theorem C2_margin_identity (mfc : ℚ) (category : String) (weight : ℚ) (k : ℤ)
    (channel : String) :
    (calculate_unit_economics mfc category weight (k : ℚ) channel).net_margin =
      (k : ℚ) - (calculate_unit_economics mfc category weight (k : ℚ) channel).total_cost := by
  simp only [calculate_unit_economics, unit_economics_core]
  rw [sub_sub, round2_intCast_sub]

/-- C3: the seven individually reported cost components (manufacturing,
packaging, platform fees, logistics, returns, marketing allocation and GST
liability) sum to the reported total_cost to within 1 unit of currency, for
every input to the aggregator. -/
theorem C3_waterfall_consistency (mfc : ℚ) (category : String) (weight mrp : ℚ)
    (channel : String) :
    |(calculate_unit_economics mfc category weight mrp channel).manufacturing_cost +
      (calculate_unit_economics mfc category weight mrp channel).packaging_cost +
      (calculate_unit_economics mfc category weight mrp channel).platform_fees +
      (calculate_unit_economics mfc category weight mrp channel).logistics_cost +
      (calculate_unit_economics mfc category weight mrp channel).returns_cost +
      (calculate_unit_economics mfc category weight mrp channel).marketing_allocation +
      (calculate_unit_economics mfc category weight mrp channel).gst_liability -
      (calculate_unit_economics mfc category weight mrp channel).total_cost| ≤ 1 := by
  simp only [calculate_unit_economics, unit_economics_core]
  exact sum7_round2_close _ _ _ _ _ _ _ _ (by ring)

/-- Helper: a successful assoc? lookup returns a value stored in the table. -/
theorem assoc?_mem {α : Type} {l : List (String × α)} {k : String} {v : α}
    (h : assoc? l k = some v) : v ∈ l.map (fun p => p.2) := by
  induction l with
  | nil => simp [assoc?] at h
  | cons a rest ih =>
      obtain ⟨k0, v0⟩ := a
      simp only [assoc?] at h
      by_cases hk : k = k0
      · rw [if_pos hk] at h
        simp only [Option.some.injEq] at h
        simp [h]
      · rw [if_neg hk] at h
        simp [ih h]

/-- Every price in the static raw-material database is strictly positive. -/
theorem raw_material_costs_pos : ∀ v ∈ RAW_MATERIAL_COSTS.map (fun p => p.2), (0:ℚ) < v := by
  decide

/-- C5: with every network-backed tier failing (no IndiaMART result, no
Google result, no AI estimate), the resolver still returns a quote with a
strictly positive price and a nonempty source, and a name absent from the
static database receives the hard default of 100 tagged low confidence. -/
theorem C5_fallback_completeness (name : String) :
    0 < (get_live_ingredient_price name none none none).price_per_kg ∧
    (get_live_ingredient_price name none none none).source ≠ "" ∧
    (assoc? RAW_MATERIAL_COSTS (db_key name) = none →
      get_live_ingredient_price name none none none =
        { ingredient := normalize_ingredient name, price_per_kg := 100,
          source := "Default", confidence := "low", scraped := false }) := by
  rcases h : assoc? RAW_MATERIAL_COSTS (db_key name) with _ | v
  · refine ⟨?_, ?_, fun _ => ?_⟩ <;> simp [get_live_ingredient_price, h]
  · have hv : (0:ℚ) < v := raw_material_costs_pos v (assoc?_mem h)
    refine ⟨?_, ?_, fun hc => ?_⟩
    · simpa [get_live_ingredient_price, h] using hv
    · simp [get_live_ingredient_price, h]
    · simp at hc

/-- Witness for C5 at the concrete names sugar (present in the static
database) and unobtainium (absent from it). -/
theorem C5_fallback_completeness_witness :
    (0 < (get_live_ingredient_price "sugar" none none none).price_per_kg ∧
      (get_live_ingredient_price "sugar" none none none).source ≠ "") ∧
    assoc? RAW_MATERIAL_COSTS (db_key "unobtainium") = none ∧
    get_live_ingredient_price "unobtainium" none none none =
      { ingredient := normalize_ingredient "unobtainium", price_per_kg := 100,
        source := "Default", confidence := "low", scraped := false } :=
  ⟨⟨(C5_fallback_completeness "sugar").1, (C5_fallback_completeness "sugar").2.1⟩,
   by decide,
   (C5_fallback_completeness "unobtainium").2.2 (by decide)⟩

/-- C6 fails as stated: a B2B scrape with exactly 3 corroborating listings
is tagged medium, not high — the resolver re-derives confidence with the
strict test num_listings > 3 (line 2261 of app.py), discarding the high tag
the IndiaMART scraper itself attached at 3 or more listings — and the
static-database fallback is tagged medium, not low (line 2330). -/
theorem C6_counterexample :
    (scrape_indiamart_aggregate [10, 20, 30]).map (fun q => q.num_listings) = some 3 ∧
    (get_live_ingredient_price "turmeric" (scrape_indiamart_aggregate [10, 20, 30])
        none none).confidence = "medium" ∧
    (get_live_ingredient_price "sugar" none none none).source = "Database (Fallback)" ∧
    (get_live_ingredient_price "sugar" none none none).confidence = "medium" := by
  decide

/-- C6 amended: the resolver tags a scraped price high only above 3
listings (3 or fewer give medium); the static-database fallback is tagged
medium; only the hard default for names absent from the database is tagged
low. -/
theorem C6_confidence_tags :
    (∀ (name : String) (prices : List ℚ) (q : IndiaMartQuote) (g : Option GoogleQuote)
        (ai : Option AIEstimate), scrape_indiamart_aggregate prices = some q →
        (get_live_ingredient_price name (some q) g ai).confidence =
          if 3 < prices.length then "high" else "medium") ∧
    (∀ (name : String) (v : ℚ), assoc? RAW_MATERIAL_COSTS (db_key name) = some v →
        (get_live_ingredient_price name none none none).confidence = "medium") ∧
    (∀ name : String, assoc? RAW_MATERIAL_COSTS (db_key name) = none →
        (get_live_ingredient_price name none none none).confidence = "low") := by
  refine ⟨?_, ?_, ?_⟩
  · intro name prices q g ai h
    unfold scrape_indiamart_aggregate at h
    by_cases hp : prices = []
    · rw [if_pos hp] at h
      cases h
    · rw [if_neg hp] at h
      have hq := Option.some.inj h
      subst hq
      simp [get_live_ingredient_price, IndiaMartQuote.toScraped]
  · intro name v h
    simp [get_live_ingredient_price, h]
  · intro name h
    simp [get_live_ingredient_price, h]

/-- Witness for C6 amended: 4 IndiaMART listings give high, a database hit
(sugar) gives medium, a database miss (unobtainium) gives low. -/
theorem C6_confidence_tags_witness :
    scrape_indiamart_aggregate [10, 20, 30, 40] = some
      { price := 30, min_price := 10, max_price := 40, source := "IndiaMART",
        num_listings := 4, confidence := "high" } ∧
    (get_live_ingredient_price "turmeric"
        (some { price := 30, min_price := 10, max_price := 40, source := "IndiaMART",
                num_listings := 4, confidence := "high" }) none none).confidence =
      (if 3 < ([10, 20, 30, 40] : List ℚ).length then "high" else "medium") ∧
    assoc? RAW_MATERIAL_COSTS (db_key "sugar") = some 42 ∧
    (get_live_ingredient_price "sugar" none none none).confidence = "medium" ∧
    assoc? RAW_MATERIAL_COSTS (db_key "unobtainium") = none ∧
    (get_live_ingredient_price "unobtainium" none none none).confidence = "low" :=
  ⟨by decide,
   C6_confidence_tags.1 "turmeric" [10, 20, 30, 40] _ none none (by decide),
   by decide,
   C6_confidence_tags.2.1 "sugar" 42 (by decide),
   by decide,
   C6_confidence_tags.2.2 "unobtainium" (by decide)⟩

/-- C9 fails as stated for even listing counts: on the two listings 10 and
20 both scrapers return the upper middle element 20 of the sorted list
(Python prices[len(prices) // 2]), while the median of the two listings is
15. -/
theorem C9_counterexample :
    scrape_indiamart_aggregate [10, 20] = some
      { price := 20, min_price := 10, max_price := 20, source := "IndiaMART",
        num_listings := 2, confidence := "medium" } ∧
    scrape_google_aggregate [10, 20] = some
      { price := 20, source := "Google Search", num_listings := 2 } ∧
    medianSpec [10, 20] = 15 ∧ (20 : ℚ) ≠ 15 := by
  have hs : sortPrices [(10:ℚ), 20] = [10, 20] := by decide
  refine ⟨by decide, by decide, ?_, by norm_num⟩
  simp [medianSpec, hs]
  norm_num

/-- C9 amended: when at least one qualifying listing price is found, both
scrapers return the element at index length / 2 of the ascending sorted
list of qualifying prices — which equals the median whenever the listing
count is odd (for an even count it is the upper of the two middle values,
not their mean). -/
theorem C9_scraped_median (prices : List ℚ) (h : prices ≠ []) :
    (∃ q, scrape_indiamart_aggregate prices = some q ∧
        q.price = (sortPrices prices).getD (prices.length / 2) 0) ∧
    (∃ g, scrape_google_aggregate prices = some g ∧
        g.price = (sortPrices prices).getD (prices.length / 2) 0) ∧
    (prices.length % 2 = 1 →
        (sortPrices prices).getD (prices.length / 2) 0 = medianSpec prices) := by
  have hlen : (sortPrices prices).length = prices.length := by
    simp [sortPrices, List.length_insertionSort]
  have h1 : scrape_indiamart_aggregate prices = some
      { price := scraped_median prices, min_price := (prices.min?).getD 0,
        max_price := (prices.max?).getD 0, source := "IndiaMART",
        num_listings := prices.length,
        confidence := if 3 ≤ prices.length then "high" else "medium" } := by
    unfold scrape_indiamart_aggregate
    rw [if_neg h]
  have h2 : scrape_google_aggregate prices = some
      { price := scraped_median prices, source := "Google Search",
        num_listings := prices.length } := by
    unfold scrape_google_aggregate
    rw [if_neg h]
  refine ⟨⟨_, h1, rfl⟩, ⟨_, h2, rfl⟩, ?_⟩
  · intro hodd
    simp only [medianSpec, hlen]
    rw [if_pos hodd]

/-- Witness for C9 amended at the three listings 10, 30, 20: the returned
price is the true median 20. -/
theorem C9_scraped_median_witness :
    ([10, 30, 20] : List ℚ) ≠ [] ∧
    ((∃ q, scrape_indiamart_aggregate [10, 30, 20] = some q ∧
        q.price = (sortPrices [10, 30, 20]).getD (([10, 30, 20] : List ℚ).length / 2) 0) ∧
     (∃ g, scrape_google_aggregate [10, 30, 20] = some g ∧
        g.price = (sortPrices [10, 30, 20]).getD (([10, 30, 20] : List ℚ).length / 2) 0) ∧
     (([10, 30, 20] : List ℚ).length % 2 = 1 →
        (sortPrices [10, 30, 20]).getD (([10, 30, 20] : List ℚ).length / 2) 0 =
          medianSpec [10, 30, 20])) :=
  ⟨by decide, C9_scraped_median [10, 30, 20] (by decide)⟩

/-- C7: for every input, the aggregator reports
gst_liability = round(price * gst_rate / (1 + gst_rate), 2) with the GST
rate looked up by category, GST is backed out of the MRP rather than added
on top, and a category absent from the GST table falls back to the default
rate of 18 percent. -/
theorem C7_gst_backed_out (mfc : ℚ) (category : String) (weight mrp : ℚ)
    (channel : String) :
    (calculate_unit_economics mfc category weight mrp channel).gst_liability =
      round2 (mrp * lookupD GST_RATES category (18/100) /
        (1 + lookupD GST_RATES category (18/100))) ∧
    (calculate_unit_economics mfc category weight mrp channel).gst_rate =
      lookupD GST_RATES category (18/100) ∧
    (assoc? GST_RATES category = none → lookupD GST_RATES category (18/100) = 18/100) := by
  refine ⟨rfl, rfl, fun h => ?_⟩
  simp [lookupD, assocD, h]

/-- Witness for C7 at a category absent from the GST table. -/
theorem C7_gst_backed_out_witness :
    (calculate_unit_economics 10 "Handmade Candles" 200 150 "E-commerce").gst_liability =
      round2 (150 * lookupD GST_RATES "Handmade Candles" (18/100) /
        (1 + lookupD GST_RATES "Handmade Candles" (18/100))) ∧
    assoc? GST_RATES "Handmade Candles" = none ∧
    lookupD GST_RATES "Handmade Candles" (18/100) = 18/100 :=
  ⟨(C7_gst_backed_out 10 "Handmade Candles" 200 150 "E-commerce").1,
   by decide,
   (C7_gst_backed_out 10 "Handmade Candles" 200 150 "E-commerce").2.2 (by decide)⟩

/-- C4 fails as stated for the Quick Commerce channel: the aggregator
averages only blinkit, zepto and swiggy_instamart, while the rate table
also configures bigbasket.  At price 100 the aggregator reports platform
fees of 30, while the average over all four configured apps is 28.75. -/
theorem C4_counterexample :
    (calculate_unit_economics 0 "Other" 200 100 "Quick Commerce").platform_fees = 30 ∧
    qc_average_all_configured 100 = 115/4 ∧ (30 : ℚ) ≠ 115/4 := by
  refine ⟨?_, ?_, by norm_num⟩
  · simp [calculate_unit_economics, unit_economics_core, channel_branch,
      get_quick_commerce_fees, QUICK_COMMERCE_FEES, assocD, assoc?]
    norm_num [round2, rhe, Int.fract, round_eq, Int.floor_eq_iff]
  · simp [qc_average_all_configured, QUICK_COMMERCE_FEES, get_quick_commerce_fees,
      assocD, assoc?]
    norm_num

/-- C4 amended: for every price, weight and category, with channel
E-commerce the reported platform_fees is the arithmetic mean of the Amazon
and Flipkart fee totals (both exposed in the platform breakdown), and with
channel Quick Commerce it is the arithmetic mean of the blinkit, zepto and
swiggy_instamart fee totals — bigbasket, although configured in the rate
table, is not part of the average. -/
theorem C4_platform_fee_average (mfc : ℚ) (category : String) (weight mrp : ℚ) :
    ((calculate_unit_economics mfc category weight mrp "E-commerce").platform_fees =
      round2 (((get_amazon_fees mrp weight category Zone.national).total_platform_fee +
        (get_flipkart_fees mrp weight category Zone.national).total_platform_fee) / 2) ∧
     (calculate_unit_economics mfc category weight mrp "E-commerce").platform_breakdown =
      PlatformBreakdown.ecommerce (get_amazon_fees mrp weight category Zone.national)
        (get_flipkart_fees mrp weight category Zone.national)
        (((get_amazon_fees mrp weight category Zone.national).total_platform_fee +
          (get_flipkart_fees mrp weight category Zone.national).total_platform_fee) / 2)) ∧
    ((calculate_unit_economics mfc category weight mrp "Quick Commerce").platform_fees =
      round2 (((get_quick_commerce_fees mrp "blinkit").total_platform_fee +
        (get_quick_commerce_fees mrp "zepto").total_platform_fee +
        (get_quick_commerce_fees mrp "swiggy_instamart").total_platform_fee) / 3) ∧
     (calculate_unit_economics mfc category weight mrp "Quick Commerce").platform_breakdown =
      PlatformBreakdown.quick (get_quick_commerce_fees mrp "blinkit")
        (get_quick_commerce_fees mrp "zepto") (get_quick_commerce_fees mrp "swiggy_instamart")
        (((get_quick_commerce_fees mrp "blinkit").total_platform_fee +
          (get_quick_commerce_fees mrp "zepto").total_platform_fee +
          (get_quick_commerce_fees mrp "swiggy_instamart").total_platform_fee) / 3)) := by
  refine ⟨⟨?_, ?_⟩, ⟨?_, ?_⟩⟩ <;>
    simp [calculate_unit_economics, unit_economics_core, channel_branch]

/-- C10: for every channel other than E-commerce and Quick Commerce the
aggregator takes the D2C branch: platform_fees is exactly 4 percent of the
price (2 percent shopify transaction fee plus 2 percent payment-gateway
fee); the amortized monthly platform fee of 2499/500 appears only in the
platform breakdown and enters neither platform_fees nor total_cost; the
logistics cost and the return rate are computed exactly as for the
E-commerce channel. -/
theorem C10_d2c_branch (mfc : ℚ) (category : String) (weight mrp : ℚ)
    (channel : String) (h1 : channel ≠ "E-commerce") (h2 : channel ≠ "Quick Commerce") :
    (calculate_unit_economics mfc category weight mrp channel).platform_fees =
      round2 (mrp * (2/100) + mrp * (2/100)) ∧
    (calculate_unit_economics mfc category weight mrp channel).platform_breakdown =
      PlatformBreakdown.d2c (mrp * (2/100)) (mrp * (2/100)) (2499/500) ∧
    (calculate_unit_economics mfc category weight mrp channel).logistics_cost =
      (calculate_unit_economics mfc category weight mrp "E-commerce").logistics_cost ∧
    (calculate_unit_economics mfc category weight mrp channel).return_rate =
      (calculate_unit_economics mfc category weight mrp "E-commerce").return_rate ∧
    (calculate_unit_economics mfc category weight mrp channel).total_cost =
      round2 (mfc + (estimate_packaging_cost weight category none).total_packaging_cost +
        (mrp * (2/100) + mrp * (2/100)) + ecommerce_logistics_cost weight +
        mrp * lookupD RETURN_RATES category (8/100) + mrp * (10/100) +
        mrp * lookupD GST_RATES category (18/100) /
          (1 + lookupD GST_RATES category (18/100))) := by
  refine ⟨?_, ?_, ?_, ?_, ?_⟩ <;>
    simp [calculate_unit_economics, unit_economics_core, channel_branch, h1, h2]

/-- Witness for C10 at the channel string D2C. -/
theorem C10_d2c_branch_witness :
    (("D2C" : String) ≠ "E-commerce" ∧ ("D2C" : String) ≠ "Quick Commerce") ∧
    ((calculate_unit_economics 10 "Other" 200 100 "D2C").platform_fees =
      round2 (100 * (2/100) + 100 * (2/100)) ∧
     (calculate_unit_economics 10 "Other" 200 100 "D2C").platform_breakdown =
      PlatformBreakdown.d2c (100 * (2/100)) (100 * (2/100)) (2499/500)) :=
  ⟨⟨by decide, by decide⟩,
   ⟨(C10_d2c_branch 10 "Other" 200 100 "D2C" (by decide) (by decide)).1,
    (C10_d2c_branch 10 "Other" 200 100 "D2C" (by decide) (by decide)).2.1⟩⟩

/-- The Amazon closing fee is constant on each price bracket. -/
theorem amazon_closing_fee_congr {p q : ℚ} (h : price_bracket p = price_bracket q) :
    amazon_closing_fee p = amazon_closing_fee q := by
  unfold price_bracket at h
  unfold amazon_closing_fee
  split_ifs at h ⊢ <;> first | rfl | omega

/-- The Flipkart fixed fee is constant on each price bracket. -/
theorem flipkart_fixed_fee_congr {p q : ℚ} (h : price_bracket p = price_bracket q) :
    flipkart_fixed_fee p = flipkart_fixed_fee q := by
  unfold price_bracket at h
  unfold flipkart_fixed_fee
  split_ifs at h ⊢ <;> first | rfl | omega

/-- The Amazon closing fee is positive at every price. -/
theorem amazon_closing_fee_pos (p : ℚ) : 0 < amazon_closing_fee p := by
  unfold amazon_closing_fee
  split_ifs <;> norm_num

/-- The Amazon weight-handling fee is positive for every zone and weight. -/
theorem amazon_weight_fee_pos (z : Zone) (w : ℚ) : 0 < amazon_weight_fee z w := by
  cases z <;> simp only [amazon_weight_fee] <;> split_ifs <;> norm_num

/-- The Flipkart fixed fee is positive at every price. -/
theorem flipkart_fixed_fee_pos (p : ℚ) : 0 < flipkart_fixed_fee p := by
  unfold flipkart_fixed_fee
  split_ifs <;> norm_num

/-- The Flipkart shipping fee is positive for every zone and weight. -/
theorem flipkart_shipping_fee_pos (z : Zone) (w : ℚ) : 0 < flipkart_shipping_fee z w := by
  cases z <;> simp only [flipkart_shipping_fee] <;> split_ifs <;> norm_num

/-- The xpressbees national logistics cost is positive at every weight. -/
theorem ecommerce_logistics_cost_pos (w : ℚ) : 0 < ecommerce_logistics_cost w := by
  unfold ecommerce_logistics_cost
  split_ifs <;> norm_num

/-- Every primary-packaging cost in the packaging catalog is positive. -/
theorem packaging_table_pos :
    ∀ v ∈ PACKAGING_COSTS_DETAILED.map (fun p => p.2), (0:ℚ) < v.1 := by
  simp [PACKAGING_COSTS_DETAILED]

/-- The primary-packaging cost resolved for any packaging type is positive
(an unknown type falls back to the default of 10). -/
theorem packaging_primary_pos (t : String) :
    (0:ℚ) < ((assoc? PACKAGING_COSTS_DETAILED t).map (fun p => p.1)).getD 10 := by
  rcases h : assoc? PACKAGING_COSTS_DETAILED t with _ | v
  · norm_num
  · simpa using packaging_table_pos v (assoc?_mem h)

/-- Value of the label cost looked up in the raw-material table. -/
theorem labels_val : lookupD RAW_MATERIAL_COSTS "labels" 2 = 2 := by decide

/-- Value of the closure cost looked up in the raw-material table. -/
theorem closures_val : lookupD RAW_MATERIAL_COSTS "caps_closures" 3 = 3 := by decide

/-- The total packaging cost is positive for every weight, category and
packaging type. -/
theorem packaging_total_pos (weight : ℚ) (category : String) (pt : Option String) :
    0 < (estimate_packaging_cost weight category pt).total_packaging_cost := by
  have hp := packaging_primary_pos
    (match pt with | some t => t | none => auto_packaging_type weight category)
  simp only [estimate_packaging_cost, labels_val, closures_val]
  linarith

/-- Helper for the monotonicity claim: when the combined per-unit cost at
two prices differs cross-multiplied by a positive constant times the price
difference, the margin fraction is strictly larger at the larger price. -/
theorem margin_frac_mono (p1 p2 T1 T2 G1 G2 K : ℚ) (h1 : 0 < p1) (h12 : p1 < p2)
    (hK : 0 < K)
    (hdiff : (p2 - T2 - G2) * p1 - (p1 - T1 - G1) * p2 = K * (p2 - p1)) :
    (p1 - T1 - G1) / p1 * 100 < (p2 - T2 - G2) / p2 * 100 := by
  have h2 : 0 < p2 := lt_trans h1 h12
  rw [div_mul_eq_mul_div, div_mul_eq_mul_div, div_lt_div_iff h1 h2]
  nlinarith [mul_pos hK (sub_pos.mpr h12)]

/-- C8 amended: with nonnegative manufacturing cost, the margin percentage
computed by the aggregator (before its final one-decimal rounding) is
strictly increasing in price as long as both prices fall into the same
platform fixed-fee price bracket; across bracket boundaries the fixed-fee
jumps can make it fall. -/
theorem C8_margin_monotonicity (mfc : ℚ) (category : String) (weight : ℚ)
    (channel : String) (p1 p2 : ℚ) (hm : 0 ≤ mfc) (h1 : 0 < p1) (h12 : p1 < p2)
    (hb : price_bracket p1 = price_bracket p2) :
    (unit_economics_core mfc category weight p1 channel).margin_percentage <
      (unit_economics_core mfc category weight p2 channel).margin_percentage := by
  have h2 : 0 < p2 := lt_trans h1 h12
  by_cases hc1 : channel = "E-commerce"
  · subst hc1
    simp only [unit_economics_core, channel_branch, get_amazon_fees, get_flipkart_fees,
      String.reduceEq, reduceIte]
    rw [if_pos h1, if_pos h2]
    refine margin_frac_mono p1 p2 _ _ _ _
      (mfc + (estimate_packaging_cost weight category none).total_packaging_cost +
        ecommerce_logistics_cost weight +
        (59/100) * (amazon_closing_fee p1 + amazon_weight_fee Zone.national weight +
          flipkart_fixed_fee p1 + flipkart_shipping_fee Zone.national weight))
      h1 h12 ?_ ?_
    · have hpk := packaging_total_pos weight category none
      have hlg := ecommerce_logistics_cost_pos weight
      have hca := amazon_closing_fee_pos p1
      have hwa := amazon_weight_fee_pos Zone.national weight
      have hff := flipkart_fixed_fee_pos p1
      have hsf := flipkart_shipping_fee_pos Zone.national weight
      linarith
    · rw [(amazon_closing_fee_congr hb).symm, (flipkart_fixed_fee_congr hb).symm]
      ring
  · by_cases hc2 : channel = "Quick Commerce"
    · subst hc2
      simp only [unit_economics_core, channel_branch, get_quick_commerce_fees,
        QUICK_COMMERCE_FEES, assocD, assoc?, Option.getD_some, String.reduceEq, reduceIte]
      rw [if_pos h1, if_pos h2]
      refine margin_frac_mono p1 p2 _ _ _ _
        (mfc + (estimate_packaging_cost weight category none).total_packaging_cost)
        h1 h12 ?_ ?_
      · have hpk := packaging_total_pos weight category none
        linarith
      · ring
    · simp only [unit_economics_core, channel_branch]
      rw [if_neg hc1, if_neg hc2, if_neg hc1, if_neg hc2]
      simp only
      rw [if_pos h1, if_pos h2]
      refine margin_frac_mono p1 p2 _ _ _ _
        (mfc + (estimate_packaging_cost weight category none).total_packaging_cost +
          ecommerce_logistics_cost weight)
        h1 h12 ?_ ?_
      · have hpk := packaging_total_pos weight category none
        have hlg := ecommerce_logistics_cost_pos weight
        linarith
      · ring

/-- Witness for C8 amended: for Packaged Snacks at 200 grams on E-commerce
with the fallback manufacturing cost, raising the price from 280 to 290
(both in the lowest bracket) strictly raises the unrounded margin
percentage. -/
theorem C8_margin_monotonicity_witness :
    (0 ≤ (567/25 : ℚ) ∧ (0 : ℚ) < 280 ∧ (280 : ℚ) < 290 ∧
      price_bracket 280 = price_bracket 290) ∧
    (unit_economics_core (567/25) "Packaged Snacks" 200 280 "E-commerce").margin_percentage <
      (unit_economics_core (567/25) "Packaged Snacks" 200 290 "E-commerce").margin_percentage :=
  ⟨⟨by norm_num, by norm_num, by norm_num, by norm_num [price_bracket]⟩,
   C8_margin_monotonicity (567/25) "Packaged Snacks" 200 "E-commerce" 280 290
     (by norm_num) (by norm_num) (by norm_num) (by norm_num [price_bracket])⟩

/-- Amazon fee total for Packaged Snacks, 200 grams, price 300, national
zone. -/
theorem amazon_snacks_300 :
    (get_amazon_fees 300 200 "Packaged Snacks" Zone.national).total_platform_fee = 6313/50 := by
  simp [get_amazon_fees, amazon_closing_fee, amazon_weight_fee, AMAZON_referral_fees,
    category_to_amazon, lookupD, assocD, assoc?]
  norm_num

/-- Flipkart fee total for Packaged Snacks, 200 grams, price 300, national
zone. -/
theorem flipkart_snacks_300 :
    (get_flipkart_fees 300 200 "Packaged Snacks" Zone.national).total_platform_fee = 5133/50 := by
  simp [get_flipkart_fees, flipkart_fixed_fee, flipkart_shipping_fee,
    FLIPKART_commission_rates, category_to_flipkart, lookupD, assocD, assoc?]
  norm_num

/-- Amazon fee total for Packaged Snacks, 200 grams, price 301, national
zone: the closing fee drops from 26 to 21 across the 300 boundary. -/
theorem amazon_snacks_301 :
    (get_amazon_fees 301 200 "Packaged Snacks" Zone.national).total_platform_fee = 75284/625 := by
  simp [get_amazon_fees, amazon_closing_fee, amazon_weight_fee, AMAZON_referral_fees,
    category_to_amazon, lookupD, assocD, assoc?]
  norm_num

/-- Flipkart fee total for Packaged Snacks, 200 grams, price 301, national
zone: the fixed fee jumps from 11 to 25 across the 300 boundary. -/
theorem flipkart_snacks_301 :
    (get_flipkart_fees 301 200 "Packaged Snacks" Zone.national).total_platform_fee = 596313/5000 := by
  simp [get_flipkart_fees, flipkart_fixed_fee, flipkart_shipping_fee,
    FLIPKART_commission_rates, category_to_flipkart, lookupD, assocD, assoc?]
  norm_num

/-- C8 fails as stated: raising the price from 300 to 301 (all other inputs
fixed: Packaged Snacks, 200 grams, E-commerce, fallback manufacturing cost
22.68) makes the reported margin_percentage fall from 6.8 to 5.2, because
the Flipkart fixed fee jumps from 11 to 25 at the 300 price-bracket
boundary, outweighing the Amazon closing-fee drop from 26 to 21. -/
theorem C8_counterexample :
    (calculate_unit_economics (567/25) "Packaged Snacks" 200 300 "E-commerce").margin_percentage = 34/5 ∧
    (calculate_unit_economics (567/25) "Packaged Snacks" 200 301 "E-commerce").margin_percentage = 26/5 ∧
    ((26 : ℚ)/5) < 34/5 := by
  refine ⟨?_, ?_, by norm_num⟩
  · simp only [calculate_unit_economics, unit_economics_core, channel_branch,
      pack_snacks_200, amazon_snacks_300, flipkart_snacks_300]
    simp [ecommerce_logistics_cost, RETURN_RATES, GST_RATES, lookupD, assocD, assoc?]
    norm_num [round1, rhe, Int.fract, round_eq, Int.floor_eq_iff]
  · simp only [calculate_unit_economics, unit_economics_core, channel_branch,
      pack_snacks_200, amazon_snacks_301, flipkart_snacks_301]
    simp [ecommerce_logistics_cost, RETURN_RATES, GST_RATES, lookupD, assocD, assoc?]
    norm_num [round1, rhe, Int.fract, round_eq, Int.floor_eq_iff]

end GoNoGo
